import Mathlib

/-!
Verification of the clarity-harvester core: the metric-normalization layer of
`src/dashboard.py` (field extraction, top-item ranking, and the five composite
score calculators) together with the spec-described platform classifier and
friction score, which are not present in the source files.

Modelling conventions for the shallow embedding:
* A country payload is a record with an optional `webshop` list of metric
  blocks; a JSON payload without a `webshop` entry is `none`, Python's falsy
  guard `not country_data.get('webshop')` covers both `none` and `some []`.
* `information` entries are association lists from string keys to rational
  numbers; a JSON `null` or an absent field is modelled as absence of the key
  (Python's `dict.get` returns `None` in both cases, so the two are
  observationally identical in every code path of `dashboard.py`).
* Python floats are modelled as exact rationals; `round(x, 2)` is modelled as
  exact round-half-to-even at two decimal places.
* `float(x or d)` is modelled by `orQ`: the default `d` is used when the
  extracted value is missing, and also when it is `0` (Python truthiness).
-/

namespace ClarityHarvester

/-- One entry of a metric block's `information` list: a record mapping string
keys (e.g. `"sessionsWithMetricPercentage"`) to numeric values. -/
abbrev Entry := List (String × ℚ)

/-- One element of a payload's `webshop` list: `metricName` may be absent
(`metric.get('metricName')`), `information` defaults to `[]` when absent
(`metric.get('information', [])`). -/
structure MetricBlock where
  metricName : Option String
  information : List Entry
  deriving DecidableEq

/-- A per-country payload as consumed by `dashboard.py`: only the `webshop`
field is read by the core; `none` models a payload without that key. -/
structure CountryData where
  webshop : Option (List MetricBlock)
  deriving DecidableEq

/-- Python's guard `not country_data.get('webshop')`: true when the `webshop`
key is absent or its value is empty. -/
def webshopFalsy (cd : CountryData) : Bool :=
  match cd.webshop with
  | none => true
  | some [] => true
  | some (_ :: _) => false

/-- The loop body of `get_metric_value`: scan the metric blocks in order; a
block whose `metricName` matches and whose `information` list is non-empty
returns `information[0].get(info_key)` (possibly `none` when the key is
absent); a matching block with empty `information` does NOT return, the loop
continues with the remaining blocks. -/
def gmvLoop (name key : String) : List MetricBlock → Option ℚ
  | [] => none
  | mb :: rest =>
    if mb.metricName = some name then
      match mb.information with
      | [] => gmvLoop name key rest
      | e :: _ => List.lookup key e
    else gmvLoop name key rest

/-- `get_metric_value(country_data, metric_name, info_key)` from
`src/dashboard.py` lines 49-59. -/
def get_metric_value (cd : CountryData) (name key : String) : Option ℚ :=
  if webshopFalsy cd then none
  else gmvLoop name key (cd.webshop.getD [])

/-- Python `float(x or d)` applied to an extracted optional value: the default
fires when the value is missing and also when it equals `0` (falsy). -/
def orQ : Option ℚ → ℚ → ℚ
  | none, d => d
  | some q, d => if q = 0 then d else q

/-- Python `int` truncation toward zero on a rational. -/
def truncInt (q : ℚ) : ℤ :=
  if q < 0 then -(⌊-q⌋) else ⌊q⌋

/-- The sort key of `get_top_items`: `int(x.get('sessionsCount', 0))`. -/
def sessionsKey (e : Entry) : ℤ :=
  truncInt ((List.lookup "sessionsCount" e).getD 0)

/-- The comparison used to model
`sorted(info, key=lambda x: int(x.get('sessionsCount', 0)), reverse=True)`:
a stable sort placing larger keys first. -/
def sessionsDesc (a b : Entry) : Bool :=
  decide (sessionsKey b ≤ sessionsKey a)

/-- The loop body of `get_top_items`: the first block whose `metricName`
matches returns its `information` sorted by descending `sessionsCount`,
truncated to `limit` entries (even when `information` is empty). -/
def gtiLoop (name : String) (limit : ℕ) : List MetricBlock → List Entry
  | [] => []
  | mb :: rest =>
    if mb.metricName = some name then
      (mb.information.mergeSort sessionsDesc).take limit
    else gtiLoop name limit rest

/-- `get_top_items(country_data, metric_name, limit=5)` from
`src/dashboard.py` lines 61-70. -/
def get_top_items (cd : CountryData) (name : String) (limit : ℕ) : List Entry :=
  if webshopFalsy cd then []
  else gtiLoop name limit (cd.webshop.getD [])

/-- Round-half-to-even to the nearest integer, the exact-arithmetic model of
Python 3 `round` on a rational value. -/
def roundHalfEven (q : ℚ) : ℤ :=
  if q - ⌊q⌋ < 1/2 then ⌊q⌋
  else if 1/2 < q - ⌊q⌋ then ⌊q⌋ + 1
  else if ⌊q⌋ % 2 = 0 then ⌊q⌋ else ⌊q⌋ + 1

/-- Python `round(x, 2)` modelled exactly on rationals. -/
def round2 (q : ℚ) : ℚ :=
  (roundHalfEven (q * 100) : ℚ) / 100

/-- `calculate_frustration_index(country_data)` from `src/dashboard.py`
lines 73-92: `None` when `webshop` is falsy, otherwise the weighted sum
`rage*0.35 + dead*0.25 + script*0.20 + error*0.15 + quickback*0.05`
(missing inputs default to 0) capped at 100 and rounded to 2 decimals. -/
def calculate_frustration_index (cd : CountryData) : Option ℚ :=
  if webshopFalsy cd then none
  else
    some (round2 (min
      (orQ (get_metric_value cd "RageClickCount" "sessionsWithMetricPercentage") 0 * 0.35 +
       orQ (get_metric_value cd "DeadClickCount" "sessionsWithMetricPercentage") 0 * 0.25 +
       orQ (get_metric_value cd "ScriptErrorCount" "sessionsWithMetricPercentage") 0 * 0.20 +
       orQ (get_metric_value cd "ErrorClickCount" "sessionsWithMetricPercentage") 0 * 0.15 +
       orQ (get_metric_value cd "QuickbackClick" "sessionsWithMetricPercentage") 0 * 0.05) 100))

/-- `calculate_conversion_risk(country_data)` from `src/dashboard.py`
lines 94-111: `None` when `webshop` is falsy, otherwise
`quickback*0.40 + dead*0.30 + error*0.20 + (100 - scroll)*0.10` with
`scroll = float(... or 50)`, capped at 100 and rounded to 2 decimals. -/
def calculate_conversion_risk (cd : CountryData) : Option ℚ :=
  if webshopFalsy cd then none
  else
    some (round2 (min
      (orQ (get_metric_value cd "QuickbackClick" "sessionsWithMetricPercentage") 0 * 0.40 +
       orQ (get_metric_value cd "DeadClickCount" "sessionsWithMetricPercentage") 0 * 0.30 +
       orQ (get_metric_value cd "ErrorClickCount" "sessionsWithMetricPercentage") 0 * 0.20 +
       (100 - orQ (get_metric_value cd "ScrollDepth" "averageScrollDepth") 50) * 0.10) 100))

/-- `calculate_tech_health(country_data)` from `src/dashboard.py`
lines 113-126: `None` when `webshop` is falsy, otherwise
`100 - (script*0.60 + error*0.40)` floored at 0 and rounded to 2 decimals. -/
def calculate_tech_health (cd : CountryData) : Option ℚ :=
  if webshopFalsy cd then none
  else
    some (round2 (max
      (100 -
       (orQ (get_metric_value cd "ScriptErrorCount" "sessionsWithMetricPercentage") 0 * 0.60 +
        orQ (get_metric_value cd "ErrorClickCount" "sessionsWithMetricPercentage") 0 * 0.40)) 0))

/-- `calculate_engagement(country_data)` from `src/dashboard.py`
lines 128-138: `None` when `webshop` is falsy, otherwise
`scroll - rage*0.5` floored at 0 and rounded to 2 decimals
(`scroll` defaults to 0 here, unlike in `calculate_conversion_risk`). -/
def calculate_engagement (cd : CountryData) : Option ℚ :=
  if webshopFalsy cd then none
  else
    some (round2 (max
      (orQ (get_metric_value cd "ScrollDepth" "averageScrollDepth") 0 -
       orQ (get_metric_value cd "RageClickCount" "sessionsWithMetricPercentage") 0 * 0.5) 0))

/-- `calculate_localization_quality(country_data)` from `src/dashboard.py`
lines 140-155: `None` when `webshop` is falsy, otherwise
`100 - (script*0.30 + dead*0.50 + rage*0.20)` floored at 0 and rounded to
2 decimals. -/
def calculate_localization_quality (cd : CountryData) : Option ℚ :=
  if webshopFalsy cd then none
  else
    some (round2 (max
      (100 -
       (orQ (get_metric_value cd "ScriptErrorCount" "sessionsWithMetricPercentage") 0 * 0.30 +
        orQ (get_metric_value cd "DeadClickCount" "sessionsWithMetricPercentage") 0 * 0.50 +
        orQ (get_metric_value cd "RageClickCount" "sessionsWithMetricPercentage") 0 * 0.20)) 0))

/-! ## Platform classifier (spec-modelled)

The spec's §4.1 Platform Classifier is not present in `src/` (only the
harvester and the dashboard's normalization layer are); it is modelled here
from the spec's words. -/

/-- The closed platform label set of the spec's data model. -/
inductive Platform where
  | NextGen
  | Webshop
  | Netshop
  | Support
  | Other
  | Unknown
  deriving DecidableEq

/-- Does `needle` match an initial segment of `hay`? -/
def matchesAt : List Char → List Char → Bool
  | [], _ => true
  | _ :: _, [] => false
  | a :: as, b :: bs => a == b && matchesAt as bs

/-- Does `needle` occur as a contiguous run inside `hay`? -/
def containsChars (needle : List Char) : List Char → Bool
  | [] => needle.isEmpty
  | c :: t => matchesAt needle (c :: t) || containsChars needle t

/-- The spec's marker check: does the marker occur inside the evidence blob
(both given as character lists)? -/
def hasMarker (blob : List Char) (marker : String) : Bool :=
  containsChars marker.toList blob

/-- Lowercase a character list (the spec lowercases the evidence blob). -/
def lowerChars (s : List Char) : List Char :=
  s.map Char.toLower

/-- Join character lists with a single space, the spec's
"concatenated into one evidence blob separated by whitespace". -/
def joinWithSpace : List (List Char) → List Char
  | [] => []
  | [s] => s
  | s :: t => s ++ ' ' :: joinWithSpace t

/-- Modelled from the spec: one entry of the `PopularPages` metric's
`information` list, carrying an optional `url` field. -/
structure UrlEntry where
  url : Option String
  deriving DecidableEq

/-- Modelled from the spec: one entry of the `ReferrerUrl` metric's
`information` list, carrying a possibly-null `name` field. -/
structure RefEntry where
  name : Option String
  deriving DecidableEq

/-- Modelled from the spec: the classifier's input — the country name plus
the `PopularPages` and `ReferrerUrl` metric blocks of the payload (each
`none` when the block is absent). -/
structure ClassifierPayload where
  country : String
  popularPages : Option (List UrlEntry)
  referrerUrls : Option (List RefEntry)
  deriving DecidableEq

/-- Modelled from the spec: evidence gathering — the `url` field of every
`PopularPages` entry, followed by the non-null `name` fields of the
`ReferrerUrl` entries. -/
def evidenceOf (p : ClassifierPayload) : List String :=
  (p.popularPages.getD []).filterMap UrlEntry.url ++
    (p.referrerUrls.getD []).filterMap RefEntry.name

/-- Modelled from the spec: the Platform Classifier of §4.1, absent from
`src/`. The collected evidence is lowercased and joined into one
whitespace-separated blob; the ordered rules are: Netshop (geography
`{Sweden, Norway}` or Swedish/Norwegian URL markers), NextGen
(`"shop.lyreco"`), Webshop (`"webshop"` or `"lyreco.com/webshop"`), Support
(`"support.lyreco"` or `"help.lyreco"`), Unknown (no evidence collected at
all), Other (evidence collected but nothing matched). -/
def classify (p : ClassifierPayload) : Platform :=
  let ev := evidenceOf p
  let blob := joinWithSpace (ev.map fun s => lowerChars s.toList)
  if p.country = "Sweden" ∨ p.country = "Norway" ∨
      hasMarker blob ".se/" = true ∨ hasMarker blob ".no/" = true ∨
      hasMarker blob "lyreco.se" = true ∨ hasMarker blob "lyreco.no" = true then
    Platform.Netshop
  else if hasMarker blob "shop.lyreco" = true then
    Platform.NextGen
  else if hasMarker blob "webshop" = true ∨
      hasMarker blob "lyreco.com/webshop" = true then
    Platform.Webshop
  else if hasMarker blob "support.lyreco" = true ∨
      hasMarker blob "help.lyreco" = true then
    Platform.Support
  else if ev = [] then
    Platform.Unknown
  else
    Platform.Other

/-- Modelled from the spec: the Friction Score composite
(`DeadClicks% * 0.7 + RageClicks% * 0.3`) of the spec's composite table; no
such composite exists in `src/dashboard.py`. Per the spec it is total and
falls back to 0 for fully-missing input. -/
def friction_score (cd : CountryData) : ℚ :=
  orQ (get_metric_value cd "DeadClickCount" "sessionsWithMetricPercentage") 0 * 0.7 +
    orQ (get_metric_value cd "RageClickCount" "sessionsWithMetricPercentage") 0 * 0.3

/-! ## Concrete payloads used by witnesses and counterexamples -/

/-- A payload whose `webshop` list is present but empty. -/
def cdEmptyWebshop : CountryData := ⟨some []⟩

/-- A payload whose only metric is `RageClickCount` at 0.01 percent. -/
def cdRageTiny : CountryData :=
  ⟨some [⟨some "RageClickCount", [[("sessionsWithMetricPercentage", (1 : ℚ)/100)]]⟩]⟩

/-- A payload carrying all five frustration inputs (10, 20, 2, 4, 6). -/
def cdFiveInputs : CountryData :=
  ⟨some [⟨some "RageClickCount", [[("sessionsWithMetricPercentage", (10 : ℚ))]]⟩,
         ⟨some "DeadClickCount", [[("sessionsWithMetricPercentage", (20 : ℚ))]]⟩,
         ⟨some "ScriptErrorCount", [[("sessionsWithMetricPercentage", (2 : ℚ))]]⟩,
         ⟨some "ErrorClickCount", [[("sessionsWithMetricPercentage", (4 : ℚ))]]⟩,
         ⟨some "QuickbackClick", [[("sessionsWithMetricPercentage", (6 : ℚ))]]⟩]⟩

/-- A payload whose only metric is a recorded `ScrollDepth` of exactly 0. -/
def cdScrollZero : CountryData :=
  ⟨some [⟨some "ScrollDepth", [[("averageScrollDepth", (0 : ℚ))]]⟩]⟩

/-- A payload with quickback 6, dead clicks 20, error clicks 4, scroll 70. -/
def cdRiskInputs : CountryData :=
  ⟨some [⟨some "QuickbackClick", [[("sessionsWithMetricPercentage", (6 : ℚ))]]⟩,
         ⟨some "DeadClickCount", [[("sessionsWithMetricPercentage", (20 : ℚ))]]⟩,
         ⟨some "ErrorClickCount", [[("sessionsWithMetricPercentage", (4 : ℚ))]]⟩,
         ⟨some "ScrollDepth", [[("averageScrollDepth", (70 : ℚ))]]⟩]⟩

/-- The spec's end-to-end France scenario: dead clicks 20, rage clicks 10. -/
def cdFrance : CountryData :=
  ⟨some [⟨some "DeadClickCount", [[("sessionsWithMetricPercentage", (20 : ℚ))]]⟩,
         ⟨some "RageClickCount", [[("sessionsWithMetricPercentage", (10 : ℚ))]]⟩]⟩

/-- A payload with all six normalizer inputs present and in range. -/
def cdAllSix : CountryData :=
  ⟨some [⟨some "RageClickCount", [[("sessionsWithMetricPercentage", (10 : ℚ))]]⟩,
         ⟨some "DeadClickCount", [[("sessionsWithMetricPercentage", (20 : ℚ))]]⟩,
         ⟨some "ScriptErrorCount", [[("sessionsWithMetricPercentage", (2 : ℚ))]]⟩,
         ⟨some "ErrorClickCount", [[("sessionsWithMetricPercentage", (4 : ℚ))]]⟩,
         ⟨some "QuickbackClick", [[("sessionsWithMetricPercentage", (6 : ℚ))]]⟩,
         ⟨some "ScrollDepth", [[("averageScrollDepth", (70 : ℚ))]]⟩]⟩

/-- Two metric blocks named `"X"`: the first has an empty `information`
list, the second carries `k = 7`. -/
def cdDupBlocks : CountryData :=
  ⟨some [⟨some "X", []⟩, ⟨some "X", [[("k", (7 : ℚ))]]⟩]⟩

/-- A single metric block named `"Y"` carrying `k = 3`. -/
def cdSingleBlock : CountryData :=
  ⟨some [⟨some "Y", [[("k", (3 : ℚ))]]⟩]⟩

/-- Every percentage saturated at 100 (scroll depth absent). -/
def cdSaturated : CountryData :=
  ⟨some [⟨some "RageClickCount", [[("sessionsWithMetricPercentage", (100 : ℚ))]]⟩,
         ⟨some "DeadClickCount", [[("sessionsWithMetricPercentage", (100 : ℚ))]]⟩,
         ⟨some "ScriptErrorCount", [[("sessionsWithMetricPercentage", (100 : ℚ))]]⟩,
         ⟨some "ErrorClickCount", [[("sessionsWithMetricPercentage", (100 : ℚ))]]⟩,
         ⟨some "QuickbackClick", [[("sessionsWithMetricPercentage", (100 : ℚ))]]⟩]⟩

/-- Rage clicks at 10, all other inputs absent. -/
def cdRageTen : CountryData :=
  ⟨some [⟨some "RageClickCount", [[("sessionsWithMetricPercentage", (10 : ℚ))]]⟩]⟩

/-- Rage clicks at 20, all other inputs absent. -/
def cdRageTwenty : CountryData :=
  ⟨some [⟨some "RageClickCount", [[("sessionsWithMetricPercentage", (20 : ℚ))]]⟩]⟩

/-- A `Browser` metric block with three entries (3, 7 and 5 sessions). -/
def cdBrowsers : CountryData :=
  ⟨some [⟨some "Browser",
    [[("sessionsCount", (3 : ℚ))], [("sessionsCount", (7 : ℚ))],
     [("sessionsCount", (5 : ℚ))]]⟩]⟩

/-! ## Helper lemmas -/

theorem webshopFalsy_eq_false {cd : CountryData} {b : MetricBlock}
    {bs : List MetricBlock} (h : cd.webshop = some (b :: bs)) :
    webshopFalsy cd = false := by
  unfold webshopFalsy
  rw [h]

theorem floor_le_roundHalfEven (q : ℚ) : ⌊q⌋ ≤ roundHalfEven q := by
  unfold roundHalfEven
  split_ifs <;> omega

theorem roundHalfEven_le_floor_add_one (q : ℚ) : roundHalfEven q ≤ ⌊q⌋ + 1 := by
  unfold roundHalfEven
  split_ifs <;> omega

theorem roundHalfEven_intCast (n : ℤ) : roundHalfEven (n : ℚ) = n := by
  unfold roundHalfEven
  rw [Int.floor_intCast]
  have h : (n : ℚ) - n = 0 := by ring
  rw [h]
  norm_num

theorem roundHalfEven_mono {x y : ℚ} (h : x ≤ y) :
    roundHalfEven x ≤ roundHalfEven y := by
  rcases lt_or_le ⌊x⌋ ⌊y⌋ with hf | hf
  · calc roundHalfEven x ≤ ⌊x⌋ + 1 := roundHalfEven_le_floor_add_one x
      _ ≤ ⌊y⌋ := by omega
      _ ≤ roundHalfEven y := floor_le_roundHalfEven y
  · have hfe : ⌊y⌋ = ⌊x⌋ := le_antisymm hf (Int.floor_le_floor h)
    have hr : x - ⌊x⌋ ≤ y - ⌊y⌋ := by
      rw [hfe]
      linarith
    unfold roundHalfEven
    rw [hfe]
    split_ifs with h1 h2 h3 h4 h5 h6 h7 h8 h9 h10 h11 <;> first
      | omega
      | linarith

theorem round2_mono {x y : ℚ} (h : x ≤ y) : round2 x ≤ round2 y := by
  unfold round2
  have hm : roundHalfEven (x * 100) ≤ roundHalfEven (y * 100) :=
    roundHalfEven_mono (by linarith)
  have hc : ((roundHalfEven (x * 100) : ℚ)) ≤ (roundHalfEven (y * 100) : ℚ) := by
    exact_mod_cast hm
  linarith

theorem round2_nonneg {q : ℚ} (h : 0 ≤ q) : 0 ≤ round2 q := by
  have h0 : roundHalfEven ((0 : ℚ)) ≤ roundHalfEven (q * 100) :=
    roundHalfEven_mono (by linarith)
  have h1 : roundHalfEven ((0 : ℚ)) = 0 := by
    simpa using roundHalfEven_intCast 0
  unfold round2
  rw [h1] at h0
  have hc : (0 : ℚ) ≤ (roundHalfEven (q * 100) : ℚ) := by exact_mod_cast h0
  linarith

theorem round2_le_100 {q : ℚ} (h : q ≤ 100) : round2 q ≤ 100 := by
  have h0 : roundHalfEven (q * 100) ≤ roundHalfEven ((10000 : ℚ)) :=
    roundHalfEven_mono (by linarith)
  have h1 : roundHalfEven ((10000 : ℚ)) = 10000 := by
    simpa using roundHalfEven_intCast 10000
  unfold round2
  rw [h1] at h0
  have hc : (roundHalfEven (q * 100) : ℚ) ≤ 10000 := by exact_mod_cast h0
  linarith

/-- `orQ v d` with an in-range default is in range whenever every value `v`
can take is in range. -/
theorem orQ_mem_Icc {v : Option ℚ} {d : ℚ}
    (hv : ∀ q, v = some q → 0 ≤ q ∧ q ≤ 100)
    (hd0 : 0 ≤ d) (hd1 : d ≤ 100) :
    0 ≤ orQ v d ∧ orQ v d ≤ 100 := by
  match v with
  | none => exact ⟨hd0, hd1⟩
  | some q =>
    rcases hv q rfl with ⟨h0, h1⟩
    show 0 ≤ (if q = 0 then d else q) ∧ (if q = 0 then d else q) ≤ 100
    split_ifs with h
    · exact ⟨hd0, hd1⟩
    · exact ⟨h0, h1⟩

/-- The scanning loop of `get_metric_value` is the first-match search over
blocks whose name matches and whose `information` list is non-empty. -/
theorem gmvLoop_eq_find (name key : String) (bs : List MetricBlock) :
    gmvLoop name key bs =
      match bs.find? (fun mb => (mb.metricName == some name) &&
          !(mb.information.isEmpty)) with
      | some mb =>
        (match mb.information with
         | [] => none
         | en :: _ => List.lookup key en)
      | none => none := by
  induction bs with
  | nil => rfl
  | cons mb rest ih =>
    by_cases hm : mb.metricName = some name
    · cases hinf : mb.information with
      | nil =>
        simp [gmvLoop, hm, hinf, List.find?, ih]
      | cons en es =>
        simp [gmvLoop, hm, hinf, List.find?]
    · have hb : (mb.metricName == some name) = false := by
        simp [hm]
      simp [gmvLoop, hm, hb, List.find?, ih]

theorem sessionsDesc_trans (a b c : Entry)
    (h1 : sessionsDesc a b) (h2 : sessionsDesc b c) : sessionsDesc a c := by
  simp only [sessionsDesc, decide_eq_true_eq] at h1 h2 ⊢
  exact le_trans h2 h1

theorem sessionsDesc_total (a b : Entry) :
    sessionsDesc a b || sessionsDesc b a := by
  simp only [sessionsDesc, Bool.or_eq_true, decide_eq_true_eq]
  exact le_total (sessionsKey b) (sessionsKey a)

theorem gtiLoop_length_le (name : String) (limit : ℕ) (bs : List MetricBlock) :
    (gtiLoop name limit bs).length ≤ limit := by
  induction bs with
  | nil => simp [gtiLoop]
  | cons mb rest ih =>
    by_cases hm : mb.metricName = some name
    · simp only [gtiLoop, hm, if_pos]
      exact le_trans (List.length_take_le _ _) le_rfl
    · simpa [gtiLoop, hm] using ih

theorem gtiLoop_pairwise (name : String) (limit : ℕ) (bs : List MetricBlock) :
    (gtiLoop name limit bs).Pairwise
      (fun a b => sessionsKey b ≤ sessionsKey a) := by
  induction bs with
  | nil => simp [gtiLoop]
  | cons mb rest ih =>
    by_cases hm : mb.metricName = some name
    · simp only [gtiLoop, hm, if_pos]
      have hs : (mb.information.mergeSort sessionsDesc).Pairwise
          (fun a b => sessionsDesc a b = true) :=
        List.sorted_mergeSort sessionsDesc_trans sessionsDesc_total
          mb.information
      have hs2 : (mb.information.mergeSort sessionsDesc).Pairwise
          (fun a b => sessionsKey b ≤ sessionsKey a) := by
        refine hs.imp ?_
        intro a b hab
        simpa [sessionsDesc] using hab
      exact hs2.sublist (List.take_sublist _ _)
    · simpa [gtiLoop, hm] using ih

theorem gtiLoop_eq_nil_of_no_match (name : String) (limit : ℕ)
    (bs : List MetricBlock) (h : ∀ mb ∈ bs, mb.metricName ≠ some name) :
    gtiLoop name limit bs = [] := by
  induction bs with
  | nil => rfl
  | cons mb rest ih =>
    have hm : mb.metricName ≠ some name := h mb (by simp)
    have hr : ∀ mb2 ∈ rest, mb2.metricName ≠ some name := by
      intro mb2 hmem
      exact h mb2 (by simp [hmem])
    simpa [gtiLoop, hm] using ih hr

/-! ## Claim theorems -/

/-- C1 (counterexample): on a payload whose `webshop` sequence is empty,
every composite-score calculator returns `none` — no value at all — rather
than the documented all-zero/all-neutral numeric composites the claim
promises. -/
theorem c1_counterexample :
    calculate_frustration_index cdEmptyWebshop = none ∧
    calculate_conversion_risk cdEmptyWebshop = none ∧
    calculate_tech_health cdEmptyWebshop = none ∧
    calculate_engagement cdEmptyWebshop = none ∧
    calculate_localization_quality cdEmptyWebshop = none := by
  refine ⟨?_, ?_, ?_, ?_, ?_⟩ <;> rfl

/-- C1 (amended): for every country payload whose `webshop` metric sequence
is absent or empty, each composite-score computation (Frustration Index,
Conversion Risk, Tech Health, Engagement, Localization Quality) returns the
no-value sentinel `None` — it does not fail, but it also does not return a
numeric default; callers are expected to coerce the sentinel themselves. -/
theorem c1_scores_none_on_missing_webshop (cd : CountryData)
    (h : cd.webshop = none ∨ cd.webshop = some []) :
    calculate_frustration_index cd = none ∧
    calculate_conversion_risk cd = none ∧
    calculate_tech_health cd = none ∧
    calculate_engagement cd = none ∧
    calculate_localization_quality cd = none := by
  have hf : webshopFalsy cd = true := by
    unfold webshopFalsy
    rcases h with h | h <;> rw [h]
  refine ⟨?_, ?_, ?_, ?_, ?_⟩ <;>
    simp [calculate_frustration_index, calculate_conversion_risk,
      calculate_tech_health, calculate_engagement,
      calculate_localization_quality, hf]

/-- C1 (witness): the amended statement instantiated at a payload with no
`webshop` key at all. -/
theorem c1_witness :
    calculate_frustration_index ⟨none⟩ = none ∧
    calculate_conversion_risk ⟨none⟩ = none ∧
    calculate_tech_health ⟨none⟩ = none ∧
    calculate_engagement ⟨none⟩ = none ∧
    calculate_localization_quality ⟨none⟩ = none :=
  c1_scores_none_on_missing_webshop ⟨none⟩ (Or.inl rfl)

/-- C2: for every payload with no PopularPages URL evidence and no
ReferrerUrl evidence whose country lies outside `{Sweden, Norway}`, the
Platform Classifier returns `Unknown`. -/
theorem c2_no_evidence_unknown (p : ClassifierPayload)
    (h : evidenceOf p = []) (h1 : p.country ≠ "Sweden")
    (h2 : p.country ≠ "Norway") :
    classify p = Platform.Unknown := by
  simp [classify, h, h1, h2, joinWithSpace, hasMarker, containsChars,
    matchesAt]

/-- C2 (witness): a France payload with both evidence sources absent is
classified `Unknown`. -/
theorem c2_witness : classify ⟨"France", none, none⟩ = Platform.Unknown :=
  c2_no_evidence_unknown ⟨"France", none, none⟩ rfl (by decide) (by decide)

/-- C3 (counterexample): with `RageClicks% = 0.01` (and a non-empty
`webshop` sequence) the code returns 0.00, not the claim's unrounded
`min(0.01 * 0.35, 100) = 0.0035`: the claim omits the final rounding to two
decimal places. -/
theorem c3_counterexample :
    calculate_frustration_index cdRageTiny ≠
      some (min ((1 : ℚ)/100 * 0.35 + 0 * 0.25 + 0 * 0.20 + 0 * 0.15 +
        0 * 0.05) 100) := by
  have h : calculate_frustration_index cdRageTiny = some 0 := by
    simp [cdRageTiny, calculate_frustration_index, webshopFalsy,
      get_metric_value, gmvLoop, List.lookup, orQ, round2, roundHalfEven]
    norm_num [Int.fract]
  rw [h]
  intro hc
  rw [Option.some.injEq] at hc
  rw [min_eq_left (by norm_num)] at hc
  norm_num at hc

/-- C3 (amended): for every payload with a non-empty `webshop` metric
sequence, the Frustration Index equals
`min(RageClicks% * 0.35 + DeadClicks% * 0.25 + ScriptErrors% * 0.20 +
ErrorClicks% * 0.15 + Quickback% * 0.05, 100)` **rounded half-to-even to two
decimal places**, with each missing percentage treated as 0; in particular,
with all five inputs saturated at 100 the score is exactly 100, not the
unclamped 115. -/
theorem c3_frustration_formula (cd : CountryData) (b : MetricBlock)
    (bs : List MetricBlock) (r d s e q : ℚ)
    (h : cd.webshop = some (b :: bs))
    (hr : orQ (get_metric_value cd "RageClickCount" "sessionsWithMetricPercentage") 0 = r)
    (hd : orQ (get_metric_value cd "DeadClickCount" "sessionsWithMetricPercentage") 0 = d)
    (hs : orQ (get_metric_value cd "ScriptErrorCount" "sessionsWithMetricPercentage") 0 = s)
    (he : orQ (get_metric_value cd "ErrorClickCount" "sessionsWithMetricPercentage") 0 = e)
    (hq : orQ (get_metric_value cd "QuickbackClick" "sessionsWithMetricPercentage") 0 = q) :
    calculate_frustration_index cd =
      some (round2 (min (r * 0.35 + d * 0.25 + s * 0.20 + e * 0.15 +
        q * 0.05) 100)) := by
  unfold calculate_frustration_index
  rw [webshopFalsy_eq_false h, hr, hd, hs, he, hq]
  simp

/-- C3 (witness): the amended formula instantiated on the saturated payload
(all five inputs 100): the capped, rounded score is exactly 100. -/
theorem c3_witness : calculate_frustration_index cdSaturated = some 100 := by
  have h := c3_frustration_formula cdSaturated _ _ 100 100 100 100 100 rfl
    rfl rfl rfl rfl rfl
  rw [h]
  rw [min_eq_right (by norm_num)]
  norm_num [round2, roundHalfEven, Int.fract]

/-- C4 (counterexample): a payload whose recorded `ScrollDepth` is exactly 0
yields Conversion Risk 5, not the 10 the claim's formula
`(100 - ScrollDepth%) * 0.10` demands: `float(x or 50)` replaces a stored 0
by the default 50 (Python truthiness), so the claim fails on payloads with
a present-but-zero scroll depth. -/
theorem c4_counterexample :
    calculate_conversion_risk cdScrollZero ≠
      some (min ((0 : ℚ) * 0.40 + 0 * 0.30 + 0 * 0.20 + (100 - 0) * 0.10)
        100) := by
  have h : calculate_conversion_risk cdScrollZero = some 5 := by
    simp [cdScrollZero, calculate_conversion_risk, webshopFalsy,
      get_metric_value, gmvLoop, List.lookup, orQ, round2, roundHalfEven]
    norm_num [Int.fract]
  rw [h]
  intro hc
  rw [Option.some.injEq] at hc
  rw [min_eq_left (by norm_num)] at hc
  norm_num at hc

/-- C4 (amended): for every payload with a non-empty `webshop` metric
sequence, Conversion Risk equals
`min(Quickback% * 0.40 + DeadClicks% * 0.30 + ErrorClicks% * 0.20 +
(100 - ScrollDepth%) * 0.10, 100)` **rounded half-to-even to two decimal
places**, where ScrollDepth falls back to the neutral 50 both when it is
missing and when its recorded value is 0 (Python truthiness in
`float(x or 50)`), and every other missing-or-zero percentage defaults
to 0. -/
theorem c4_conversion_risk_formula (cd : CountryData) (b : MetricBlock)
    (bs : List MetricBlock) (qb d e sc : ℚ)
    (h : cd.webshop = some (b :: bs))
    (hq : orQ (get_metric_value cd "QuickbackClick" "sessionsWithMetricPercentage") 0 = qb)
    (hd : orQ (get_metric_value cd "DeadClickCount" "sessionsWithMetricPercentage") 0 = d)
    (he : orQ (get_metric_value cd "ErrorClickCount" "sessionsWithMetricPercentage") 0 = e)
    (hsc : orQ (get_metric_value cd "ScrollDepth" "averageScrollDepth") 50 = sc) :
    calculate_conversion_risk cd =
      some (round2 (min (qb * 0.40 + d * 0.30 + e * 0.20 +
        (100 - sc) * 0.10) 100)) := by
  unfold calculate_conversion_risk
  rw [webshopFalsy_eq_false h, hq, hd, he, hsc]
  simp

/-- C4 (witness): the amended formula instantiated on a payload with
quickback 6, dead clicks 20, error clicks 4 and scroll depth 70:
`6*0.4 + 20*0.3 + 4*0.2 + 30*0.1 = 12.2`. -/
theorem c4_witness : calculate_conversion_risk cdRiskInputs =
    some ((122 : ℚ)/10) := by
  have h := c4_conversion_risk_formula cdRiskInputs _ _ 6 20 4 70 rfl
    rfl rfl rfl rfl
  rw [h]
  rw [min_eq_left (by norm_num)]
  norm_num [round2, roundHalfEven, Int.fract]

/-- C5: the Metric Normalizer's Friction Score composite equals
`DeadClicks% * 0.7 + RageClicks% * 0.3` (missing inputs default to 0); the
composite itself is absent from `src/` and is modelled from the spec. -/
theorem c5_friction_formula (cd : CountryData) (d r : ℚ)
    (hd : orQ (get_metric_value cd "DeadClickCount" "sessionsWithMetricPercentage") 0 = d)
    (hr : orQ (get_metric_value cd "RageClickCount" "sessionsWithMetricPercentage") 0 = r) :
    friction_score cd = d * 0.7 + r * 0.3 := by
  unfold friction_score
  rw [hd, hr]

/-- C5 (witness): the spec's France scenario — dead clicks 20, rage clicks
10 — gives Friction Score `20*0.7 + 10*0.3 = 17.0`. -/
theorem c5_witness : friction_score cdFrance = 17 := by
  have h := c5_friction_formula cdFrance 20 10 rfl rfl
  rw [h]
  norm_num

/-- C6: for every payload with a non-empty `webshop` metric sequence whose
raw percentage inputs (the five `sessionsWithMetricPercentage` values and
`averageScrollDepth`) all lie in [0, 100] wherever present, every computed
composite score (Frustration Index, Conversion Risk, Tech Health,
Engagement, Localization Quality) is a value in the closed range
[0, 100]. -/
theorem c6_scores_in_range (cd : CountryData) (b : MetricBlock)
    (bs : List MetricBlock) (h : cd.webshop = some (b :: bs))
    (hrc : ∀ q, get_metric_value cd "RageClickCount" "sessionsWithMetricPercentage" = some q → 0 ≤ q ∧ q ≤ 100)
    (hdc : ∀ q, get_metric_value cd "DeadClickCount" "sessionsWithMetricPercentage" = some q → 0 ≤ q ∧ q ≤ 100)
    (hse : ∀ q, get_metric_value cd "ScriptErrorCount" "sessionsWithMetricPercentage" = some q → 0 ≤ q ∧ q ≤ 100)
    (hec : ∀ q, get_metric_value cd "ErrorClickCount" "sessionsWithMetricPercentage" = some q → 0 ≤ q ∧ q ≤ 100)
    (hqb : ∀ q, get_metric_value cd "QuickbackClick" "sessionsWithMetricPercentage" = some q → 0 ≤ q ∧ q ≤ 100)
    (hsd : ∀ q, get_metric_value cd "ScrollDepth" "averageScrollDepth" = some q → 0 ≤ q ∧ q ≤ 100) :
    (∃ v, calculate_frustration_index cd = some v ∧ 0 ≤ v ∧ v ≤ 100) ∧
    (∃ v, calculate_conversion_risk cd = some v ∧ 0 ≤ v ∧ v ≤ 100) ∧
    (∃ v, calculate_tech_health cd = some v ∧ 0 ≤ v ∧ v ≤ 100) ∧
    (∃ v, calculate_engagement cd = some v ∧ 0 ≤ v ∧ v ≤ 100) ∧
    (∃ v, calculate_localization_quality cd = some v ∧ 0 ≤ v ∧ v ≤ 100) := by
  have hfc := webshopFalsy_eq_false h
  obtain ⟨hr0, hr1⟩ := orQ_mem_Icc hrc (le_refl 0) (by norm_num)
  obtain ⟨hd0, hd1⟩ := orQ_mem_Icc hdc (le_refl 0) (by norm_num)
  obtain ⟨hs0, hs1⟩ := orQ_mem_Icc hse (le_refl 0) (by norm_num)
  obtain ⟨he0, he1⟩ := orQ_mem_Icc hec (le_refl 0) (by norm_num)
  obtain ⟨hq0, hq1⟩ := orQ_mem_Icc hqb (le_refl 0) (by norm_num)
  have hn : 0 ≤ orQ (get_metric_value cd "ScrollDepth" "averageScrollDepth") 50 ∧
      orQ (get_metric_value cd "ScrollDepth" "averageScrollDepth") 50 ≤ 100 :=
    orQ_mem_Icc hsd (by norm_num) (by norm_num)
  have hz : 0 ≤ orQ (get_metric_value cd "ScrollDepth" "averageScrollDepth") 0 ∧
      orQ (get_metric_value cd "ScrollDepth" "averageScrollDepth") 0 ≤ 100 :=
    orQ_mem_Icc hsd (le_refl 0) (by norm_num)
  obtain ⟨hn0, hn1⟩ := hn
  obtain ⟨hz0, hz1⟩ := hz
  refine ⟨?_, ?_, ?_, ?_, ?_⟩
  · rw [calculate_frustration_index, hfc]
    refine ⟨_, rfl, ?_, ?_⟩
    · exact round2_nonneg (le_min (by linarith) (by norm_num))
    · exact round2_le_100 (min_le_right _ _)
  · rw [calculate_conversion_risk, hfc]
    refine ⟨_, rfl, ?_, ?_⟩
    · exact round2_nonneg (le_min (by linarith) (by norm_num))
    · exact round2_le_100 (min_le_right _ _)
  · rw [calculate_tech_health, hfc]
    refine ⟨_, rfl, ?_, ?_⟩
    · exact round2_nonneg (le_max_right _ _)
    · exact round2_le_100 (max_le (by linarith) (by norm_num))
  · rw [calculate_engagement, hfc]
    refine ⟨_, rfl, ?_, ?_⟩
    · exact round2_nonneg (le_max_right _ _)
    · exact round2_le_100 (max_le (by linarith) (by norm_num))
  · rw [calculate_localization_quality, hfc]
    refine ⟨_, rfl, ?_, ?_⟩
    · exact round2_nonneg (le_max_right _ _)
    · exact round2_le_100 (max_le (by linarith) (by norm_num))

/-- C6 (witness): the range theorem instantiated on a payload with all six
inputs present and in range (10, 20, 2, 4, 6, 70). -/
theorem c6_witness :
    (∃ v, calculate_frustration_index cdAllSix = some v ∧ 0 ≤ v ∧ v ≤ 100) ∧
    (∃ v, calculate_conversion_risk cdAllSix = some v ∧ 0 ≤ v ∧ v ≤ 100) ∧
    (∃ v, calculate_tech_health cdAllSix = some v ∧ 0 ≤ v ∧ v ≤ 100) ∧
    (∃ v, calculate_engagement cdAllSix = some v ∧ 0 ≤ v ∧ v ≤ 100) ∧
    (∃ v, calculate_localization_quality cdAllSix = some v ∧ 0 ≤ v ∧ v ≤ 100) := by
  refine c6_scores_in_range cdAllSix _ _ rfl ?_ ?_ ?_ ?_ ?_ ?_ <;>
    · intro q hq
      simp [cdAllSix, get_metric_value, webshopFalsy, gmvLoop,
        List.lookup] at hq
      subst hq
      norm_num

/-- C7 (counterexample): with two blocks named `"X"`, the first having an
empty `information` list and the second carrying `k = 7`, `get_metric_value`
returns `7` — the loop skips the first matching block instead of returning
the missing-value sentinel for it, so "the first block in sequence order
wins" is false. -/
theorem c7_counterexample :
    get_metric_value cdDupBlocks "X" "k" = some 7 ∧
    get_metric_value cdDupBlocks "X" "k" ≠ none := by
  constructor
  · rfl
  · intro h
    exact Option.noConfusion (h.symm.trans rfl)

/-- C7 (amended): `get_metric_value` returns the value at the requested key
in the first entry of the `information` list of the first matching block
**whose `information` list is non-empty** (matching blocks with empty
`information` are skipped, so a later duplicate can win), and the
missing-value sentinel when no such block exists or the key is absent from
that entry. -/
theorem c7_first_nonempty_match (cd : CountryData) (bs : List MetricBlock)
    (name key : String) (h : cd.webshop = some bs) (hne : bs ≠ []) :
    get_metric_value cd name key =
      match bs.find? (fun mb => (mb.metricName == some name) &&
          !(mb.information.isEmpty)) with
      | some mb =>
        (match mb.information with
         | [] => none
         | en :: _ => List.lookup key en)
      | none => none := by
  match bs, hne with
  | b :: rest, _ =>
    rw [get_metric_value, webshopFalsy_eq_false h, h]
    simp only [Option.getD_some, Bool.false_eq_true, if_false]
    exact gmvLoop_eq_find name key (b :: rest)

/-- C7 (witness): the amended characterization instantiated on a payload
with a single `"Y"` block carrying `k = 3`. -/
theorem c7_witness : get_metric_value cdSingleBlock "Y" "k" = some 3 := by
  have h := c7_first_nonempty_match cdSingleBlock
    [⟨some "Y", [[("k", (3 : ℚ))]]⟩] "Y" "k" rfl (by simp)
  rw [h]
  rfl

/-- C8: for every payload with a non-empty `webshop` metric sequence, Tech
Health, Engagement and Localization Quality never return a value below 0:
each is floored at 0 before being returned. -/
theorem c8_scores_floored_at_zero (cd : CountryData) (b : MetricBlock)
    (bs : List MetricBlock) (h : cd.webshop = some (b :: bs)) :
    (∃ v, calculate_tech_health cd = some v ∧ 0 ≤ v) ∧
    (∃ v, calculate_engagement cd = some v ∧ 0 ≤ v) ∧
    (∃ v, calculate_localization_quality cd = some v ∧ 0 ≤ v) := by
  have hfc := webshopFalsy_eq_false h
  refine ⟨?_, ?_, ?_⟩
  · rw [calculate_tech_health, hfc]
    exact ⟨_, rfl, round2_nonneg (le_max_right _ _)⟩
  · rw [calculate_engagement, hfc]
    exact ⟨_, rfl, round2_nonneg (le_max_right _ _)⟩
  · rw [calculate_localization_quality, hfc]
    exact ⟨_, rfl, round2_nonneg (le_max_right _ _)⟩

/-- C8 (witness): the floor theorem instantiated on a payload where every
percentage is saturated at 100, together with the boundary check
`ScriptErrors% = 100` and `ErrorClicks% = 100` give Tech Health exactly 0
(not −100). -/
theorem c8_witness :
    ((∃ v, calculate_tech_health cdSaturated = some v ∧ 0 ≤ v) ∧
     (∃ v, calculate_engagement cdSaturated = some v ∧ 0 ≤ v) ∧
     (∃ v, calculate_localization_quality cdSaturated = some v ∧ 0 ≤ v)) ∧
    calculate_tech_health cdSaturated = some 0 := by
  constructor
  · exact c8_scores_floored_at_zero cdSaturated _ _ rfl
  · simp [cdSaturated, calculate_tech_health, webshopFalsy,
      get_metric_value, gmvLoop, List.lookup, orQ, round2, roundHalfEven]
    norm_num [Int.fract]

/-- C9: for every pair of payloads with non-empty `webshop` metric
sequences, if each of the five raw frustration inputs (after the missing ↦ 0
default) of the first payload is at most the corresponding input of the
second, then the first Frustration Index is at most the second: the score is
monotone non-decreasing in each raw input, and in particular raising any one
input while holding the other four fixed never decreases it. -/
theorem c9_frustration_monotone (cd cd2 : CountryData) (b b2 : MetricBlock)
    (bs bs2 : List MetricBlock)
    (h : cd.webshop = some (b :: bs)) (h2 : cd2.webshop = some (b2 :: bs2))
    (hr : orQ (get_metric_value cd "RageClickCount" "sessionsWithMetricPercentage") 0 ≤
      orQ (get_metric_value cd2 "RageClickCount" "sessionsWithMetricPercentage") 0)
    (hd : orQ (get_metric_value cd "DeadClickCount" "sessionsWithMetricPercentage") 0 ≤
      orQ (get_metric_value cd2 "DeadClickCount" "sessionsWithMetricPercentage") 0)
    (hs : orQ (get_metric_value cd "ScriptErrorCount" "sessionsWithMetricPercentage") 0 ≤
      orQ (get_metric_value cd2 "ScriptErrorCount" "sessionsWithMetricPercentage") 0)
    (he : orQ (get_metric_value cd "ErrorClickCount" "sessionsWithMetricPercentage") 0 ≤
      orQ (get_metric_value cd2 "ErrorClickCount" "sessionsWithMetricPercentage") 0)
    (hq : orQ (get_metric_value cd "QuickbackClick" "sessionsWithMetricPercentage") 0 ≤
      orQ (get_metric_value cd2 "QuickbackClick" "sessionsWithMetricPercentage") 0) :
    ∃ v v2, calculate_frustration_index cd = some v ∧
      calculate_frustration_index cd2 = some v2 ∧ v ≤ v2 := by
  rw [calculate_frustration_index, webshopFalsy_eq_false h]
  rw [calculate_frustration_index, webshopFalsy_eq_false h2]
  refine ⟨_, _, rfl, rfl, ?_⟩
  apply round2_mono
  apply min_le_min _ le_rfl
  linarith

/-- C9 (witness): the monotonicity theorem instantiated on two payloads
whose only input is `RageClicks%`, at 10 and at 20. -/
theorem c9_witness : ∃ v v2,
    calculate_frustration_index cdRageTen = some v ∧
    calculate_frustration_index cdRageTwenty = some v2 ∧ v ≤ v2 := by
  refine c9_frustration_monotone cdRageTen cdRageTwenty _ _ _ _ rfl rfl
    ?_ ?_ ?_ ?_ ?_ <;> decide

/-- C10: for every payload, metric name and limit `n`, `get_top_items`
returns at most `n` entries, sorted in non-increasing order of their integer
`sessionsCount` (missing counts are treated as 0); it returns `[]` when the
`webshop` sequence is absent or empty, and `[]` when no metric block matches
the requested name. -/
theorem c10_top_items_spec (cd : CountryData) (name : String) (n : ℕ) :
    (get_top_items cd name n).length ≤ n ∧
    (get_top_items cd name n).Pairwise
      (fun a b => sessionsKey b ≤ sessionsKey a) ∧
    (webshopFalsy cd = true → get_top_items cd name n = []) ∧
    (∀ bs, cd.webshop = some bs →
      (∀ mb ∈ bs, mb.metricName ≠ some name) →
      get_top_items cd name n = []) := by
  refine ⟨?_, ?_, ?_, ?_⟩
  · rw [get_top_items]
    split_ifs
    · simp
    · exact gtiLoop_length_le name n _
  · rw [get_top_items]
    split_ifs
    · simp
    · exact gtiLoop_pairwise name n _
  · intro hf
    rw [get_top_items, hf]
    simp
  · intro bs hbs hno
    rw [get_top_items]
    split_ifs
    · rfl
    · rw [hbs]
      exact gtiLoop_eq_nil_of_no_match name n bs hno

/-- C10 (witness): the specification applied at a concrete `Browser` block
with session counts 3, 7, 5 and limit 2, together with the concrete
evaluation showing the two top entries in descending order. -/
theorem c10_witness :
    (get_top_items cdBrowsers "Browser" 2).length ≤ 2 ∧
    get_top_items cdBrowsers "Browser" 2 =
      [[("sessionsCount", (7 : ℚ))], [("sessionsCount", (5 : ℚ))]] := by
  constructor
  · exact (c10_top_items_spec cdBrowsers "Browser" 2).1
  · simp [cdBrowsers, get_top_items, webshopFalsy, gtiLoop, List.mergeSort,
      List.merge, sessionsDesc, sessionsKey, truncInt, List.lookup]
    norm_num [List.cons_merge_cons, sessionsDesc, sessionsKey, truncInt,
      List.lookup]

end ClarityHarvester
